import Mathlib

/-!
Verification of the portfolio backend query-building, authorization,
authentication and error-handling logic (src/backend/schema.ts), through a
shallow embedding in Lean.  SQL query texts are modelled as strings built
exactly in the concatenation order of the source; caller values that the source
pushes into the bound-parameter array are modelled as a `List SqlValue`.
-/

set_option maxRecDepth 4000

namespace Portfolio

/-- A value pushed into the bound-parameter array of a query (`values.push(...)`). -/
inductive SqlValue where
  | str (s : String)
  | num (n : Nat)
  | bool (b : Bool)
  deriving DecidableEq, Repr

/-- JavaScript truthiness of an optional string: `undefined` and `""` are falsy. -/
def truthyStr : Option String → Bool
  | none => false
  | some s => s != ""

/-- JavaScript truthiness of an optional number: `undefined` and `0` are falsy. -/
def truthyNum : Option Nat → Bool
  | none => false
  | some n => n != 0

/-- A positional SQL parameter placeholder, as interpolated by the source
(`$` followed by the running parameter index). -/
def mkParam (i : Nat) : String := "$" ++ toString i

/-- Character-level prefix test, used to count clause occurrences in query text. -/
def isPrefixChars : List Char → List Char → Bool
  | [], _ => true
  | _ :: _, [] => false
  | a :: as, b :: bs => a == b && isPrefixChars as bs

/-- Number of occurrences (at any position) of a character pattern in a character list. -/
def countOcc (pat : List Char) : List Char → Nat
  | [] => 0
  | c :: rest => (if isPrefixChars pat (c :: rest) then 1 else 0) + countOcc pat rest

/-- Number of `" AND "` occurrences in a query text: every dynamic filter clause the
source appends starts with `" AND "` and none of the base texts, clause bodies or
allow-listed sort fields contain it, so this counts the WHERE predicates added. -/
def countAnd (s : String) : Nat := countOcc " AND ".data s.data

/-- The pattern occurs somewhere in the string. -/
def occursIn (pat s : String) : Prop := ∃ pre post, s = pre ++ pat ++ post

/-- The JavaScript `toUpperCase` function restricted to ASCII, applied to the sort direction. -/
def toUpperCase (s : String) : String := String.mk (s.data.map Char.toUpper)

/-- One conditional filter step of the query assembly in the source:
`if (cond) { query += clause($paramIndex); values.push(v); paramIndex++; }`. -/
def step (cond : Bool) (clauseOf : Nat → String) (v : SqlValue)
    (st : String × List SqlValue × Nat) : String × List SqlValue × Nat :=
  if cond then (st.1 ++ clauseOf st.2.2, st.2.1 ++ [v], st.2.2 + 1) else st

theorem step_false (clauseOf : Nat → String) (v : SqlValue) (st : String × List SqlValue × Nat) :
    step false clauseOf v st = st := rfl

theorem step_true (clauseOf : Nat → String) (v : SqlValue) (st : String × List SqlValue × Nat) :
    step true clauseOf v st = (st.1 ++ clauseOf st.2.2, st.2.1 ++ [v], st.2.2 + 1) := rfl

-- ---------------------------------------------------------------------------
-- GET /api/skills (schema.ts lines 1398-1449): validated query and SQL assembly
-- ---------------------------------------------------------------------------

/-- The validated query of GET /api/skills (`skillQuerySchema`): `search`,
`category`, `min_proficiency` optional; `sort_by`/`sort_order`/`limit` defaulted. -/
structure SkillQuery where
  search : Option String
  category : Option String
  min_proficiency : Option Nat
  sort_by : String
  sort_order : String
  limit : Nat
  deriving DecidableEq, Repr

/-- Filter assembly of GET /api/skills (lines 1411-1431): starts from the base
text with `WHERE 1=1`, then one conditional clause per filter, guarded by the
JavaScript truthiness tests of the source (`if (search)`, `if (category)`,
`if (min_proficiency)`). -/
def skillFilters (q : SkillQuery) : String × List SqlValue × Nat :=
  ("SELECT * FROM skills WHERE 1=1", [], 1)
  |> step (truthyStr q.search) (fun i => " AND name ILIKE " ++ mkParam i)
      (SqlValue.str ("%" ++ q.search.getD "" ++ "%"))
  |> step (truthyStr q.category) (fun i => " AND category = " ++ mkParam i)
      (SqlValue.str (q.category.getD ""))
  |> step (truthyNum q.min_proficiency) (fun i => " AND proficiency >= " ++ mkParam i)
      (SqlValue.num (q.min_proficiency.getD 0))

/-- Full query issued by GET /api/skills (lines 1433-1437): filters, then
`ORDER BY`, then a bound `LIMIT` parameter. -/
def buildSkillsQuery (q : SkillQuery) : String × List SqlValue :=
  let f := skillFilters q
  (f.1 ++ " ORDER BY " ++ q.sort_by ++ " " ++ toUpperCase q.sort_order
      ++ " LIMIT " ++ mkParam f.2.2,
   f.2.1 ++ [SqlValue.num q.limit])

-- ---------------------------------------------------------------------------
-- GET /api/projects (schema.ts lines 798-888): validated query and SQL assembly
-- ---------------------------------------------------------------------------

/-- The validated query of GET /api/projects (`projectQuerySchema`). -/
structure ProjectQuery where
  search : Option String
  category : Option String
  user_id : Option String
  page : Nat
  limit : Nat
  sort_by : String
  sort_order : String
  deriving DecidableEq, Repr

/-- Base text of the item query of GET /api/projects (lines 813-818, whitespace
normalized to single spaces). -/
def projectItemsBase : String :=
  "SELECT p.*, u.full_name as author_name FROM projects p JOIN users u ON p.user_id = u.user_id WHERE 1=1"

/-- Base text of the count query of GET /api/projects (line 847). -/
def projectCountBase : String := "SELECT COUNT(*) FROM projects p WHERE 1=1"

/-- Filter assembly shared by the item query (lines 822-838) and the count query
(lines 851-867) of GET /api/projects: the source duplicates the same three
conditional clauses over both base texts. -/
def projectFilters (base : String) (q : ProjectQuery) : String × List SqlValue × Nat :=
  (base, [], 1)
  |> step (truthyStr q.search)
      (fun i => " AND (p.title ILIKE " ++ mkParam i ++ " OR p.content ILIKE " ++ mkParam i ++ ")")
      (SqlValue.str ("%" ++ q.search.getD "" ++ "%"))
  |> step (truthyStr q.category) (fun i => " AND p.category = " ++ mkParam i)
      (SqlValue.str (q.category.getD ""))
  |> step (truthyStr q.user_id) (fun i => " AND p.user_id = " ++ mkParam i)
      (SqlValue.str (q.user_id.getD ""))

/-- Item query issued by GET /api/projects (lines 840-842): filters, then
`ORDER BY p.<sort_by> <SORT_ORDER>`, then bound `LIMIT`/`OFFSET` parameters with
`offset = (page-1)*limit` (line 811). -/
def buildProjectItemsQuery (q : ProjectQuery) : String × List SqlValue :=
  let f := projectFilters projectItemsBase q
  (f.1 ++ " ORDER BY p." ++ q.sort_by ++ " " ++ toUpperCase q.sort_order
      ++ " LIMIT " ++ mkParam f.2.2 ++ " OFFSET " ++ mkParam (f.2.2 + 1),
   f.2.1 ++ [SqlValue.num q.limit, SqlValue.num ((q.page - 1) * q.limit)])

/-- Count query issued by GET /api/projects (lines 847-869): same predicate set,
no ORDER BY, LIMIT or OFFSET. -/
def buildProjectCountQuery (q : ProjectQuery) : String × List SqlValue :=
  let f := projectFilters projectCountBase q
  (f.1, f.2.1)

-- ---------------------------------------------------------------------------
-- GET /api/contact (schema.ts lines 1270-1356): validated query and SQL assembly
-- ---------------------------------------------------------------------------

/-- The validated query of GET /api/contact (`contactMessageQuerySchema`);
dates are carried as ISO strings. -/
structure ContactQuery where
  search : Option String
  read : Option Bool
  start_date : Option String
  end_date : Option String
  page : Nat
  limit : Nat
  sort_by : String
  sort_order : String
  deriving DecidableEq, Repr

/-- Filter assembly of the item query of GET /api/contact (lines 1286-1312):
four conditional clauses — `search` under string truthiness, `read` under an
explicit `!== undefined` test, and the two date bounds (a parsed `Date` is
always truthy when present). -/
def contactFilters (q : ContactQuery) : String × List SqlValue × Nat :=
  ("SELECT * FROM contact_messages WHERE 1=1", [], 1)
  |> step (truthyStr q.search)
      (fun i => " AND (name ILIKE " ++ mkParam i ++ " OR email ILIKE " ++ mkParam i
          ++ " OR message ILIKE " ++ mkParam i ++ ")")
      (SqlValue.str ("%" ++ q.search.getD "" ++ "%"))
  |> step q.read.isSome (fun i => " AND read = " ++ mkParam i)
      (SqlValue.bool (q.read.getD false))
  |> step q.start_date.isSome (fun i => " AND created_at >= " ++ mkParam i)
      (SqlValue.str (q.start_date.getD ""))
  |> step q.end_date.isSome (fun i => " AND created_at <= " ++ mkParam i)
      (SqlValue.str (q.end_date.getD ""))

/-- Item query issued by GET /api/contact (lines 1314-1316). -/
def buildContactItemsQuery (q : ContactQuery) : String × List SqlValue :=
  let f := contactFilters q
  (f.1 ++ " ORDER BY " ++ q.sort_by ++ " " ++ toUpperCase q.sort_order
      ++ " LIMIT " ++ mkParam f.2.2 ++ " OFFSET " ++ mkParam (f.2.2 + 1),
   f.2.1 ++ [SqlValue.num q.limit, SqlValue.num ((q.page - 1) * q.limit)])

/-- Filter assembly of the count query of GET /api/contact (lines 1321-1336):
the source re-applies only the `search` and `read` clauses — the `start_date`
and `end_date` clauses of the item query are not applied to the count. -/
def contactCountFilters (q : ContactQuery) : String × List SqlValue × Nat :=
  ("SELECT COUNT(*) FROM contact_messages WHERE 1=1", [], 1)
  |> step (truthyStr q.search)
      (fun i => " AND (name ILIKE " ++ mkParam i ++ " OR email ILIKE " ++ mkParam i
          ++ " OR message ILIKE " ++ mkParam i ++ ")")
      (SqlValue.str ("%" ++ q.search.getD "" ++ "%"))
  |> step q.read.isSome (fun i => " AND read = " ++ mkParam i)
      (SqlValue.bool (q.read.getD false))

/-- Count query issued by GET /api/contact (line 1337). -/
def buildContactCountQuery (q : ContactQuery) : String × List SqlValue :=
  let f := contactCountFilters q
  (f.1, f.2.1)

-- ---------------------------------------------------------------------------
-- Row-level semantics of the contact predicates, for comparing the totals the
-- two queries compute over the same table.
-- ---------------------------------------------------------------------------

/-- A row of the `contact_messages` table (db.sql), with `created_at` as an ISO
string (ISO timestamps compare lexicographically like their dates). -/
structure ContactRow where
  message_id : String
  name : String
  email : String
  message : String
  created_at : String
  read : Bool
  deriving DecidableEq, Repr

/-- ASCII lowering of a string, for the case-insensitive `ILIKE` semantics. -/
def toLowerCase (s : String) : String := String.mk (s.data.map Char.toLower)

/-- Lexicographic order on character lists. -/
def leChars : List Char → List Char → Bool
  | [], _ => true
  | _ :: _, [] => false
  | a :: as, b :: bs =>
    if a.toNat < b.toNat then true
    else if a.toNat == b.toNat then leChars as bs
    else false

/-- Lexicographic string order; on ISO-8601 timestamps it agrees with the
chronological order Postgres uses for `created_at` comparisons. -/
def strLe (a b : String) : Bool := leChars a.data b.data

/-- Postgres `col ILIKE` with a percent-wrapped bound pattern: case-insensitive substring containment. -/
def ilikeContains (col pat : String) : Bool :=
  0 < countOcc (toLowerCase pat).data (toLowerCase col).data

/-- Row predicate of the item query of GET /api/contact: the conjunction of the
clauses `contactFilters` appends, evaluated on one row. -/
def contactItemsPred (q : ContactQuery) (r : ContactRow) : Bool :=
  (!truthyStr q.search
      || (ilikeContains r.name (q.search.getD "") || ilikeContains r.email (q.search.getD "")
          || ilikeContains r.message (q.search.getD "")))
  && (!q.read.isSome || (r.read == q.read.getD false))
  && (!q.start_date.isSome || strLe (q.start_date.getD "") r.created_at)
  && (!q.end_date.isSome || strLe r.created_at (q.end_date.getD ""))

/-- Row predicate of the count query of GET /api/contact: only the `search` and
`read` clauses. -/
def contactCountPred (q : ContactQuery) (r : ContactRow) : Bool :=
  (!truthyStr q.search
      || (ilikeContains r.name (q.search.getD "") || ilikeContains r.email (q.search.getD "")
          || ilikeContains r.message (q.search.getD "")))
  && (!q.read.isSome || (r.read == q.read.getD false))

/-- Total the count query reports over a table. -/
def contactReportedTotal (q : ContactQuery) (table : List ContactRow) : Nat :=
  (table.filter (contactCountPred q)).length

/-- Number of rows actually matching the predicate of the item query over a table. -/
def contactMatchingRows (q : ContactQuery) (table : List ContactRow) : Nat :=
  (table.filter (contactItemsPred q)).length

/-- A contact-message query filtering only on `start_date`, with every other
field at its schema default. -/
def contactDateQuery : ContactQuery :=
  { search := none, read := none, start_date := some "2024-01-01", end_date := none,
    page := 1, limit := 10, sort_by := "created_at", sort_order := "desc" }

/-- Two concrete contact messages, one before and one after 2024-01-01. -/
def contactTable : List ContactRow :=
  [{ message_id := "m1", name := "Ada", email := "ada@example.com",
     message := "Hello from 2023", created_at := "2023-05-01T00:00:00Z", read := false },
   { message_id := "m2", name := "Bob", email := "bob@example.com",
     message := "Hello from 2024", created_at := "2024-06-01T00:00:00Z", read := false }]

/-- C1: the claim says the count query of GET /api/contact applies the same
predicate set (search, read, start_date, end_date) as its item query, so the
reported pagination total equals the number of rows matching the item
predicate.  On the filter `start_date = 2024-01-01` the item query carries one
`created_at >=` predicate with one bound date parameter, while the issued count
query carries no predicate at all; over a table holding one row on each side of
the bound, the item predicate matches 1 row but the count query reports 2. -/
theorem c1_contact_count_drops_date_filters :
    countAnd (buildContactItemsQuery contactDateQuery).1 = 1
    ∧ countAnd (buildContactCountQuery contactDateQuery).1 = 0
    ∧ (buildContactItemsQuery contactDateQuery).2
        = [SqlValue.str "2024-01-01", SqlValue.num 10, SqlValue.num 0]
    ∧ (buildContactCountQuery contactDateQuery).2 = []
    ∧ contactMatchingRows contactDateQuery contactTable = 1
    ∧ contactReportedTotal contactDateQuery contactTable = 2 := by
  decide

-- ---------------------------------------------------------------------------
-- C2: predicates contributed per filter field
-- ---------------------------------------------------------------------------

/-- Modelled from the words of the spec: the number of optional filter criteria of a
skills query that are set (non-null), the count the predicate-count
property of the spec compares against. -/
def specSetSkillCriteriaCount (q : SkillQuery) : Nat :=
  (if q.search.isSome then 1 else 0) + (if q.category.isSome then 1 else 0)
    + (if q.min_proficiency.isSome then 1 else 0)

/-- Number of skills filter criteria that are set to a JavaScript-truthy value,
which is what the `if (...)` guards in the source actually test. -/
def truthySkillCount (q : SkillQuery) : Nat :=
  (if truthyStr q.search then 1 else 0) + (if truthyStr q.category then 1 else 0)
    + (if truthyNum q.min_proficiency then 1 else 0)

/-- Number of projects filter criteria that are set to a JavaScript-truthy value. -/
def truthyProjectCount (q : ProjectQuery) : Nat :=
  (if truthyStr q.search then 1 else 0) + (if truthyStr q.category then 1 else 0)
    + (if truthyStr q.user_id then 1 else 0)

/-- A validated skills query whose only set filter is `min_proficiency = 0`
(0 is inside the accepted schema range 0..100). -/
def skillZeroQuery : SkillQuery :=
  { search := none, category := none, min_proficiency := some 0,
    sort_by := "name", sort_order := "asc", limit := 20 }

/-- C2 (counterexample): the claim says a validated `min_proficiency` of 0 is a
set field and contributes a proficiency predicate, making the predicate count
equal the number of set fields.  But `if (min_proficiency)` is false for 0, so
the issued skills query carries zero predicates and zero filter bindings while
one field is set; the query is byte-identical to the one issued with
`min_proficiency` absent. -/
theorem c2_min_proficiency_zero_counterexample :
    specSetSkillCriteriaCount skillZeroQuery = 1
    ∧ countAnd (buildSkillsQuery skillZeroQuery).1 = 0
    ∧ (buildSkillsQuery skillZeroQuery).2 = [SqlValue.num 20]
    ∧ buildSkillsQuery skillZeroQuery
        = buildSkillsQuery { skillZeroQuery with min_proficiency := none } := by
  decide

theorem skillFilters_count (q : SkillQuery) :
    countAnd (skillFilters q).1 = truthySkillCount q
      ∧ (skillFilters q).2.1.length = truthySkillCount q := by
  cases h1 : truthyStr q.search <;> cases h2 : truthyStr q.category <;>
    cases h3 : truthyNum q.min_proficiency <;>
      refine ⟨?_, ?_⟩ <;> simp [skillFilters, step, h1, h2, h3, truthySkillCount] <;> decide

theorem projectFilters_count (q : ProjectQuery) :
    countAnd (projectFilters projectItemsBase q).1 = truthyProjectCount q
      ∧ (projectFilters projectItemsBase q).2.1.length = truthyProjectCount q := by
  cases h1 : truthyStr q.search <;> cases h2 : truthyStr q.category <;>
    cases h3 : truthyStr q.user_id <;>
      refine ⟨?_, ?_⟩ <;> simp [projectFilters, step, h1, h2, h3, truthyProjectCount] <;> decide

/-- Number of contact filter criteria whose source guard passes: JavaScript
truthiness for `search`, the explicit `!== undefined` check for `read` (so a
set `read = false` counts), and presence for the two date bounds (a parsed
Date object is always truthy). -/
def presentContactCount (q : ContactQuery) : Nat :=
  (if truthyStr q.search then 1 else 0) + (if q.read.isSome then 1 else 0)
    + (if q.start_date.isSome then 1 else 0) + (if q.end_date.isSome then 1 else 0)

theorem contactFilters_count (q : ContactQuery) :
    countAnd (contactFilters q).1 = presentContactCount q
      ∧ (contactFilters q).2.1.length = presentContactCount q := by
  cases h1 : truthyStr q.search <;> cases h2 : q.read.isSome <;>
    cases h3 : q.start_date.isSome <;> cases h4 : q.end_date.isSome <;>
      refine ⟨?_, ?_⟩ <;>
        simp [contactFilters, step, h1, h2, h3, h4, presentContactCount] <;> decide

/-- A validated contact query whose only set filter is the falsy `read = false`. -/
def contactReadFalse : ContactQuery :=
  { search := none, read := some false, start_date := none, end_date := none,
    page := 1, limit := 10, sort_by := "created_at", sort_order := "desc" }

/-- C2 (amended): for every validated query, each list-endpoint builder
contributes exactly one WHERE predicate, with exactly one bound parameter, per
filter field whose source guard passes, and none otherwise.  The guards are
JavaScript truthiness for the string and number filters of GET /api/skills and
GET /api/projects — so a set value of 0 or an empty string is treated as unset,
and in particular `min_proficiency = 0` contributes no predicate — while
GET /api/contact guards `read` by an explicit undefined check, so the set falsy
value `read = false` does contribute its predicate, and guards the date bounds
by presence. -/
theorem c2_one_predicate_per_passing_guard (qs : SkillQuery) (qp : ProjectQuery)
    (qc : ContactQuery) :
    countAnd (skillFilters qs).1 = truthySkillCount qs
    ∧ (skillFilters qs).2.1.length = truthySkillCount qs
    ∧ countAnd (projectFilters projectItemsBase qp).1 = truthyProjectCount qp
    ∧ (projectFilters projectItemsBase qp).2.1.length = truthyProjectCount qp
    ∧ countAnd (contactFilters qc).1 = presentContactCount qc
    ∧ (contactFilters qc).2.1.length = presentContactCount qc
    ∧ countAnd (contactFilters contactReadFalse).1 = 1
    ∧ (contactFilters contactReadFalse).2.1 = [SqlValue.bool false] := by
  exact ⟨(skillFilters_count qs).1, (skillFilters_count qs).2,
    (projectFilters_count qp).1, (projectFilters_count qp).2,
    (contactFilters_count qc).1, (contactFilters_count qc).2,
    by decide, by decide⟩

-- ---------------------------------------------------------------------------
-- C8: query text as a function of field presence; values only reach the
-- bound-parameter array
-- ---------------------------------------------------------------------------

theorem occursIn_append_left (p a b : String) (h : occursIn p a) : occursIn p (a ++ b) := by
  obtain ⟨pre, post, rfl⟩ := h
  exact ⟨pre, post ++ b, by simp [String.append_assoc]⟩

theorem occursIn_step (p : String) (c : Bool) (f : Nat → String) (v : SqlValue)
    (st : String × List SqlValue × Nat) (h : occursIn p st.1) : occursIn p (step c f v st).1 := by
  cases c
  · exact h
  · exact occursIn_append_left p st.1 (f st.2.2) h

/-- When a search filter is present, the item query text of GET /api/projects
names the case-insensitive substring operator ILIKE. -/
theorem projectFilters_ilike (q : ProjectQuery) (hs : truthyStr q.search = true) :
    occursIn " ILIKE " (projectFilters projectItemsBase q).1 := by
  unfold projectFilters
  apply occursIn_step
  apply occursIn_step
  rw [hs]
  exact ⟨projectItemsBase ++ " AND (p.title", "$1 OR p.content ILIKE $1)", by rfl⟩

/-- The filter text and the running parameter index of the projects query
depend only on which filters are truthy, not on their values. -/
theorem projectFilters_presence (base : String) (q q2 : ProjectQuery)
    (h1 : truthyStr q.search = truthyStr q2.search)
    (h2 : truthyStr q.category = truthyStr q2.category)
    (h3 : truthyStr q.user_id = truthyStr q2.user_id) :
    (projectFilters base q).1 = (projectFilters base q2).1
      ∧ (projectFilters base q).2.2 = (projectFilters base q2).2.2 := by
  simp only [projectFilters, step, ← h1, ← h2, ← h3]
  cases truthyStr q.search <;> cases truthyStr q.category <;> cases truthyStr q.user_id <;> simp

/-- A validated projects query with no filter set, sorted by title. -/
def projTitleSort : ProjectQuery :=
  { search := none, category := none, user_id := none, page := 1, limit := 10,
    sort_by := "title", sort_order := "asc" }

/-- The same query sorted by created_at. -/
def projCreatedSort : ProjectQuery := { projTitleSort with sort_by := "created_at" }

/-- C8 (counterexample): the claim says two validated FilterCriteria with the
same set of present fields yield byte-identical SQL text.  `sort_by` is a
criteria field that is always present (schema default), and the source
interpolates its value directly into the text: the two queries below have
identical present filter fields and identical bound parameters, yet their SQL
texts differ. -/
theorem c8_sort_value_changes_text :
    (projTitleSort.search.isSome = projCreatedSort.search.isSome
      ∧ projTitleSort.category.isSome = projCreatedSort.category.isSome
      ∧ projTitleSort.user_id.isSome = projCreatedSort.user_id.isSome)
    ∧ (buildProjectItemsQuery projTitleSort).2 = (buildProjectItemsQuery projCreatedSort).2
    ∧ (buildProjectItemsQuery projTitleSort).1 ≠ (buildProjectItemsQuery projCreatedSort).1 := by
  decide

/-- C8 (amended): for any two project queries in which the same filter fields
are present (truthy) and the allow-listed sort field and direction agree, the
item and count query texts are byte-identical — filter values, limit and page
never reach the text; when a search filter is present, its caller value is
passed only as the first bound parameter, wrapped `%...%` for the
case-insensitive substring operator ILIKE that the text names. -/
theorem c8_text_depends_only_on_presence (q q2 : ProjectQuery)
    (h1 : truthyStr q.search = truthyStr q2.search)
    (h2 : truthyStr q.category = truthyStr q2.category)
    (h3 : truthyStr q.user_id = truthyStr q2.user_id)
    (h4 : q.sort_by = q2.sort_by) (h5 : q.sort_order = q2.sort_order) :
    (buildProjectItemsQuery q).1 = (buildProjectItemsQuery q2).1
    ∧ (buildProjectCountQuery q).1 = (buildProjectCountQuery q2).1
    ∧ (truthyStr q.search = true →
        (∃ rest, (buildProjectItemsQuery q).2
            = SqlValue.str ("%" ++ q.search.getD "" ++ "%") :: rest)
          ∧ occursIn " ILIKE " (buildProjectItemsQuery q).1) := by
  obtain ⟨hti, hii⟩ := projectFilters_presence projectItemsBase q q2 h1 h2 h3
  obtain ⟨htc, _⟩ := projectFilters_presence projectCountBase q q2 h1 h2 h3
  refine ⟨?_, ?_, ?_⟩
  · simp [buildProjectItemsQuery, hti, hii, h4, h5]
  · simp [buildProjectCountQuery, htc]
  · intro hs
    constructor
    · refine ⟨(projectFilters projectItemsBase q).2.1.tail
          ++ [SqlValue.num q.limit, SqlValue.num ((q.page - 1) * q.limit)], ?_⟩
      simp only [buildProjectItemsQuery, projectFilters, step, hs]
      cases truthyStr q.category <;> cases truthyStr q.user_id <;> simp
    · simp only [buildProjectItemsQuery]
      repeat apply occursIn_append_left
      exact projectFilters_ilike q hs

/-- A validated project query with search and category filters set. -/
def projSearchA : ProjectQuery :=
  { search := some "alpha", category := some "Web Development", user_id := none,
    page := 1, limit := 10, sort_by := "created_at", sort_order := "desc" }

/-- The same presence pattern with entirely different filter values and paging. -/
def projSearchB : ProjectQuery :=
  { search := some "medicine", category := some "Design", user_id := none,
    page := 7, limit := 25, sort_by := "created_at", sort_order := "desc" }

theorem c8_text_depends_only_on_presence_witness :
    truthyStr projSearchA.search = truthyStr projSearchB.search
    ∧ ((buildProjectItemsQuery projSearchA).1 = (buildProjectItemsQuery projSearchB).1
      ∧ (buildProjectCountQuery projSearchA).1 = (buildProjectCountQuery projSearchB).1
      ∧ (truthyStr projSearchA.search = true →
          (∃ rest, (buildProjectItemsQuery projSearchA).2
              = SqlValue.str ("%" ++ projSearchA.search.getD "" ++ "%") :: rest)
            ∧ occursIn " ILIKE " (buildProjectItemsQuery projSearchA).1)) :=
  ⟨by decide, c8_text_depends_only_on_presence projSearchA projSearchB
    (by decide) (by decide) (by decide) (by decide) (by decide)⟩

-- ---------------------------------------------------------------------------
-- C6: sort validation (projectQuerySchema) and the issued ORDER BY clause
-- ---------------------------------------------------------------------------

/-- The raw query-string input of GET /api/projects before validation
(numbers already run through `parseInt`, lines 800-808). -/
structure RawProjectQuery where
  search : Option String
  category : Option String
  user_id : Option String
  page : Option Nat
  limit : Option Nat
  sort_by : Option String
  sort_order : Option String
  deriving DecidableEq, Repr

/-- A zod `z.enum([...]).default(d)` field: absent takes the default, a member
passes through, anything else is a validation failure. -/
def parseEnumD (allowed : List String) (dflt : String) : Option String → Option String
  | none => some dflt
  | some s => if s ∈ allowed then some s else none

/-- A zod `z.number().int().positive().default(d)` field. -/
def parsePositive (dflt : Nat) : Option Nat → Option Nat
  | none => some dflt
  | some n => if 0 < n then some n else none

/-- A zod `z.number().int().positive().max(100).default(d)` field. -/
def parseLimit100 (dflt : Nat) : Option Nat → Option Nat
  | none => some dflt
  | some n => if 0 < n ∧ n ≤ 100 then some n else none

/-- Parsing with projectQuerySchema (schema.ts lines 86-94): all fields must
validate, else the whole parse fails. -/
def parseProjectQuery (raw : RawProjectQuery) : Option ProjectQuery :=
  match parseEnumD ["title", "project_date", "created_at"] "created_at" raw.sort_by,
        parseEnumD ["asc", "desc"] "desc" raw.sort_order,
        parsePositive 1 raw.page, parseLimit100 10 raw.limit with
  | some sb, some so, some page, some limit =>
      some { search := raw.search, category := raw.category, user_id := raw.user_id,
             page := page, limit := limit, sort_by := sb, sort_order := so }
  | _, _, _, _ => none

/-- Outcome of GET /api/projects: a zod failure is answered with a 400
validation error before any query is issued; otherwise the item and count
queries are issued. -/
inductive ProjectsListResult where
  | validationError
  | issued (items : String × List SqlValue) (count : String × List SqlValue)
  deriving DecidableEq

/-- The handler of GET /api/projects (lines 798-888): validate, then build and
issue the two queries. -/
def getProjectsEndpoint (raw : RawProjectQuery) : ProjectsListResult :=
  match parseProjectQuery raw with
  | none => .validationError
  | some q => .issued (buildProjectItemsQuery q) (buildProjectCountQuery q)

/-- The item query text of GET /api/projects always carries the interpolated
`ORDER BY p.<sort_by> <SORT_ORDER>` clause. -/
theorem buildProjectItemsQuery_orderby (q : ProjectQuery) :
    occursIn (" ORDER BY p." ++ q.sort_by ++ " " ++ toUpperCase q.sort_order)
      (buildProjectItemsQuery q).1 := by
  refine ⟨(projectFilters projectItemsBase q).1,
    " LIMIT " ++ mkParam (projectFilters projectItemsBase q).2.2 ++ " OFFSET "
      ++ mkParam ((projectFilters projectItemsBase q).2.2 + 1), ?_⟩
  simp [buildProjectItemsQuery, String.append_assoc]

theorem parseEnumD_mem (allowed : List String) (dflt : String) (o : Option String)
    (s : String) (hd : dflt ∈ allowed) (h : parseEnumD allowed dflt o = some s) :
    s ∈ allowed := by
  cases o with
  | none => simp [parseEnumD] at h; exact h ▸ hd
  | some v =>
    simp only [parseEnumD] at h
    split at h
    · cases h; assumption
    · cases h

/-- C6: whenever GET /api/projects issues a query, its text carries an
`ORDER BY p.<field> <DIR>` clause whose field comes from the fixed schema
allow-list and whose direction is ASC or DESC; and any request whose sort
field or direction lies outside those sets is answered with a validation
error, no query being issued or defaulted. -/
theorem c6_sort_allow_list (raw : RawProjectQuery) :
    (∀ items cnt, getProjectsEndpoint raw = .issued items cnt →
      ∃ sb dir, sb ∈ ["title", "project_date", "created_at"] ∧ dir ∈ ["ASC", "DESC"]
        ∧ occursIn (" ORDER BY p." ++ sb ++ " " ++ dir) items.1)
    ∧ (∀ s, raw.sort_by = some s → s ∉ ["title", "project_date", "created_at"] →
        getProjectsEndpoint raw = .validationError)
    ∧ (∀ s, raw.sort_order = some s → s ∉ ["asc", "desc"] →
        getProjectsEndpoint raw = .validationError) := by
  refine ⟨?_, ?_, ?_⟩
  · intro items cnt h
    unfold getProjectsEndpoint at h
    rcases hq : parseProjectQuery raw with _ | q
    · rw [hq] at h; cases h
    · rw [hq] at h
      cases h
      unfold parseProjectQuery at hq
      rcases hsb : parseEnumD ["title", "project_date", "created_at"] "created_at" raw.sort_by
        with _ | sb <;> rw [hsb] at hq
      · cases hq
      rcases hso : parseEnumD ["asc", "desc"] "desc" raw.sort_order with _ | so <;>
        rw [hso] at hq
      · cases hq
      rcases hpg : parsePositive 1 raw.page with _ | pg <;> rw [hpg] at hq
      · cases hq
      rcases hlm : parseLimit100 10 raw.limit with _ | lm <;> rw [hlm] at hq
      · cases hq
      cases hq
      refine ⟨sb, toUpperCase so, parseEnumD_mem _ _ _ _ (by decide) hsb, ?_, ?_⟩
      · have hmem := parseEnumD_mem _ _ _ _ (by decide) hso
        simp only [List.mem_cons, List.not_mem_nil, or_false] at hmem
        rcases hmem with rfl | rfl <;> decide
      · exact buildProjectItemsQuery_orderby _
  · intro s hs hmem
    unfold getProjectsEndpoint parseProjectQuery
    rw [hs]
    simp [parseEnumD, hmem]
  · intro s hs hmem
    unfold getProjectsEndpoint parseProjectQuery
    rw [hs]
    rcases parseEnumD ["title", "project_date", "created_at"] "created_at" raw.sort_by with _ | sb <;>
      simp [parseEnumD, hmem]

/-- Raw request with no query parameters at all: every field defaults. -/
def rawDefaults : RawProjectQuery :=
  { search := none, category := none, user_id := none, page := none, limit := none,
    sort_by := none, sort_order := none }

/-- Raw request asking to sort by a column outside the allow-list. -/
def rawBadSortBy : RawProjectQuery := { rawDefaults with sort_by := some "password_hash" }

/-- Raw request asking for a sort direction outside asc/desc. -/
def rawBadSortOrder : RawProjectQuery := { rawDefaults with sort_order := some "upward" }

/-- The validated query `rawDefaults` parses to: every field at its default. -/
def projDefaults : ProjectQuery :=
  { search := none, category := none, user_id := none, page := 1, limit := 10,
    sort_by := "created_at", sort_order := "desc" }

theorem c6_sort_allow_list_witness :
    (∃ sb dir, sb ∈ ["title", "project_date", "created_at"] ∧ dir ∈ ["ASC", "DESC"]
      ∧ occursIn (" ORDER BY p." ++ sb ++ " " ++ dir) (buildProjectItemsQuery projDefaults).1)
    ∧ rawBadSortBy.sort_by = some "password_hash"
    ∧ getProjectsEndpoint rawBadSortBy = .validationError
    ∧ getProjectsEndpoint rawBadSortOrder = .validationError :=
  ⟨(c6_sort_allow_list rawDefaults).1 _ _ rfl, rfl,
   (c6_sort_allow_list rawBadSortBy).2.1 "password_hash" rfl (by decide),
   (c6_sort_allow_list rawBadSortOrder).2.2 "upward" rfl (by decide)⟩

-- ---------------------------------------------------------------------------
-- C3, C4, C9: ownership guard and the PUT/DELETE handler pipelines
-- ---------------------------------------------------------------------------

/-- The acting identity attached to a request by `authenticateToken`. -/
structure Actor where
  user_id : String
  role : String
  deriving DecidableEq, Repr

/-- A row of the `projects` table (db.sql); timestamps and the project date are
carried as ISO strings and `technologies` as the parsed array. -/
structure ProjectRow where
  project_id : String
  user_id : String
  title : String
  slug : String
  featured_image : String
  category : String
  excerpt : String
  content : String
  client : Option String
  technologies : Option (List String)
  project_url : Option String
  project_date : String
  created_at : String
  updated_at : String
  deriving DecidableEq, Repr

/-- The ownership/role test the mutating handlers share (lines 995, 1058, 1111,
1159, 1222, 1629, 1686): deny when the owner of the row differs from the actor and
the actor is not an admin. -/
def ownershipDenied (rowUserId : String) (actor : Actor) : Bool :=
  rowUserId != actor.user_id && actor.role != "admin"

/-- The validated body of PUT /api/projects/:project_id
(`updateProjectInputSchema`), with the always-present `project_id`/`user_id`
keys left out: the update loop skips those two keys explicitly (line 1010). -/
structure UpdateProjectInput where
  title : Option String
  slug : Option String
  featured_image : Option String
  category : Option String
  excerpt : Option String
  content : Option String
  client : Option String
  technologies : Option (List String)
  project_url : Option String
  project_date : Option String
  deriving DecidableEq, Repr

/-- The column names collected into the SET clause by the update-field loop of
PUT /api/projects/:project_id (lines 1009-1024): one entry per defined body
field other than `project_id` and `user_id`, plus the always-set `updated_at`. -/
def projectUpdateFields (inp : UpdateProjectInput) : List String :=
  (if inp.title.isSome then ["title"] else [])
    ++ (if inp.slug.isSome then ["slug"] else [])
    ++ (if inp.featured_image.isSome then ["featured_image"] else [])
    ++ (if inp.category.isSome then ["category"] else [])
    ++ (if inp.excerpt.isSome then ["excerpt"] else [])
    ++ (if inp.content.isSome then ["content"] else [])
    ++ (if inp.client.isSome then ["client"] else [])
    ++ (if inp.technologies.isSome then ["technologies"] else [])
    ++ (if inp.project_url.isSome then ["project_url"] else [])
    ++ (if inp.project_date.isSome then ["project_date"] else [])
    ++ ["updated_at"]

/-- Row semantics of the UPDATE statement the loop assembles: each collected
column takes the body value, `updated_at` takes the current time, and every
column outside the SET clause keeps its stored value. -/
def applyProjectUpdate (row : ProjectRow) (inp : UpdateProjectInput) (now : String) : ProjectRow :=
  { row with
      title := inp.title.getD row.title,
      slug := inp.slug.getD row.slug,
      featured_image := inp.featured_image.getD row.featured_image,
      category := inp.category.getD row.category,
      excerpt := inp.excerpt.getD row.excerpt,
      content := inp.content.getD row.content,
      client := if inp.client.isSome then inp.client else row.client,
      technologies := if inp.technologies.isSome then inp.technologies else row.technologies,
      project_url := if inp.project_url.isSome then inp.project_url else row.project_url,
      project_date := inp.project_date.getD row.project_date,
      updated_at := now }

/-- Outcome of a mutating handler, restricted to the part the claims are about. -/
inductive MutationResult (α : Type) where
  | notFound
  | forbidden
  | ok (val : α)
  deriving DecidableEq

/-- The `SELECT * FROM projects WHERE project_id = $1` existence lookup. -/
def findProject (store : List ProjectRow) (pid : String) : Option ProjectRow :=
  store.find? (fun p => p.project_id == pid)

/-- PUT /api/projects/:project_id (lines 985-1042): look the row up first
(404 when absent), then apply the ownership/role test (403 on failure), then
run the assembled UPDATE. -/
def putProject (store : List ProjectRow) (actor : Actor) (pid : String)
    (inp : UpdateProjectInput) (now : String) : MutationResult ProjectRow :=
  match findProject store pid with
  | none => .notFound
  | some row =>
    if ownershipDenied row.user_id actor then .forbidden
    else .ok (applyProjectUpdate row inp now)

/-- DELETE /api/projects/:project_id (lines 1048-1071): same lookup and guard,
then `DELETE FROM projects WHERE project_id = $1`. -/
def deleteProject (store : List ProjectRow) (actor : Actor) (pid : String) :
    MutationResult (List ProjectRow) :=
  match findProject store pid with
  | none => .notFound
  | some row =>
    if ownershipDenied row.user_id actor then .forbidden
    else .ok (store.filter (fun p => !(p.project_id == pid)))

/-- A row of the `experiences` table, reduced to the columns the guard reads. -/
structure ExperienceRow where
  experience_id : String
  user_id : String
  title : String
  company : String
  deriving DecidableEq, Repr

/-- The `SELECT * FROM experiences WHERE experience_id = $1` existence lookup. -/
def findExperience (store : List ExperienceRow) (eid : String) : Option ExperienceRow :=
  store.find? (fun e => e.experience_id == eid)

/-- DELETE /api/experiences/:experience_id (lines 1676-1699): lookup, guard,
delete. -/
def deleteExperience (store : List ExperienceRow) (actor : Actor) (eid : String) :
    MutationResult (List ExperienceRow) :=
  match findExperience store eid with
  | none => .notFound
  | some row =>
    if ownershipDenied row.user_id actor then .forbidden
    else .ok (store.filter (fun e => !(e.experience_id == eid)))

/-- The shared guard passes exactly when the actor is an admin or owns the row. -/
theorem ownershipDenied_false_iff (rowUserId : String) (actor : Actor) :
    ownershipDenied rowUserId actor = false
      ↔ (actor.role = "admin" ∨ actor.user_id = rowUserId) := by
  unfold ownershipDenied
  rw [Bool.and_eq_false_iff, bne_eq_false_iff_eq, bne_eq_false_iff_eq]
  constructor
  · rintro (h | h)
    · exact Or.inr h.symm
    · exact Or.inl h
  · rintro (h | h)
    · exact Or.inr h
    · exact Or.inl h.symm

/-- C3: once the target row exists, an update or delete succeeds exactly when
the role of the actor is admin or its id equals the `user_id` column of the row;
every other (actor, resource) combination is answered with the 403 forbidden
result. -/
theorem c3_mutation_owner_or_admin (store : List ProjectRow) (actor : Actor) (pid : String)
    (inp : UpdateProjectInput) (now : String) (row : ProjectRow)
    (hfind : findProject store pid = some row) :
    (putProject store actor pid inp now = .ok (applyProjectUpdate row inp now)
        ↔ (actor.role = "admin" ∨ actor.user_id = row.user_id))
    ∧ (putProject store actor pid inp now = .forbidden
        ↔ ¬(actor.role = "admin" ∨ actor.user_id = row.user_id))
    ∧ (deleteProject store actor pid = .forbidden
        ↔ ¬(actor.role = "admin" ∨ actor.user_id = row.user_id))
    ∧ (deleteProject store actor pid = .ok (store.filter (fun p => !(p.project_id == pid)))
        ↔ (actor.role = "admin" ∨ actor.user_id = row.user_id)) := by
  have hg := ownershipDenied_false_iff row.user_id actor
  unfold putProject deleteProject
  rw [hfind]
  cases hd : ownershipDenied row.user_id actor <;> rw [hd] at hg <;> simp_all

/-- A project row owned by userA, mirroring the update scenario of the spec. -/
def sampleProject : ProjectRow :=
  { project_id := "p1", user_id := "userA", title := "Shop", slug := "ecommerce-platform",
    featured_image := "https://img.example.com/shop.png", category := "Web Development",
    excerpt := "An online shop case study", content := "Full write-up of the build",
    client := none, technologies := some ["TypeScript"], project_url := none,
    project_date := "2024-01-01", created_at := "2024-01-02", updated_at := "2024-01-02" }

/-- An update body with no field set. -/
def emptyUpdate : UpdateProjectInput :=
  { title := none, slug := none, featured_image := none, category := none,
    excerpt := none, content := none, client := none, technologies := none,
    project_url := none, project_date := none }

/-- A non-admin actor who does not own `sampleProject`. -/
def actorB : Actor := { user_id := "userB", role := "user" }

/-- An admin actor who does not own `sampleProject`. -/
def actorAdmin : Actor := { user_id := "admin1", role := "admin" }

theorem c3_mutation_owner_or_admin_witness :
    (putProject [sampleProject] actorB "p1" emptyUpdate "2024-02-01" = .forbidden
      ↔ ¬(actorB.role = "admin" ∨ actorB.user_id = sampleProject.user_id))
    ∧ (putProject [sampleProject] actorAdmin "p1" emptyUpdate "2024-02-01"
        = .ok (applyProjectUpdate sampleProject emptyUpdate "2024-02-01")
      ↔ (actorAdmin.role = "admin" ∨ actorAdmin.user_id = sampleProject.user_id)) :=
  ⟨(c3_mutation_owner_or_admin [sampleProject] actorB "p1" emptyUpdate "2024-02-01"
      sampleProject rfl).2.1,
   (c3_mutation_owner_or_admin [sampleProject] actorAdmin "p1" emptyUpdate "2024-02-01"
      sampleProject rfl).1⟩

/-- C4: when the named resource id does not exist, the update and delete
handlers answer 404 not-found for every actor, whatever its role or claimed
ownership — the existence lookup runs before the guard, which is never
consulted. -/
theorem c4_missing_resource_not_found (storeP : List ProjectRow) (storeE : List ExperienceRow)
    (actor : Actor) (pid eid : String) (inp : UpdateProjectInput) (now : String)
    (hp : findProject storeP pid = none) (he : findExperience storeE eid = none) :
    putProject storeP actor pid inp now = .notFound
    ∧ deleteProject storeP actor pid = .notFound
    ∧ deleteExperience storeE actor eid = .notFound := by
  unfold putProject deleteProject deleteExperience
  rw [hp, he]
  exact ⟨rfl, rfl, rfl⟩

theorem c4_missing_resource_not_found_witness :
    putProject [] actorAdmin "missing" emptyUpdate "2024-02-01" = .notFound
    ∧ deleteProject [] actorAdmin "missing" = .notFound
    ∧ deleteExperience [] actorAdmin "missing" = .notFound :=
  c4_missing_resource_not_found [] [] actorAdmin "missing" "missing" emptyUpdate
    "2024-02-01" rfl rfl

theorem mem_ite_singleton (x a : String) (c : Prop) [Decidable c] :
    x ∈ (if c then [a] else ([] : List String)) ↔ c ∧ x = a := by
  split <;> simp_all

/-- C9: the SET clause assembled by PUT /api/projects/:project_id never names
the `project_id` or `user_id` columns (whatever the body supplied), always
names `updated_at`, and the updated row keeps the stored project id and owner. -/
theorem c9_update_preserves_identity (row : ProjectRow) (inp : UpdateProjectInput) (now : String) :
    "project_id" ∉ projectUpdateFields inp
    ∧ "user_id" ∉ projectUpdateFields inp
    ∧ "updated_at" ∈ projectUpdateFields inp
    ∧ (applyProjectUpdate row inp now).project_id = row.project_id
    ∧ (applyProjectUpdate row inp now).user_id = row.user_id := by
  refine ⟨?_, ?_, ?_, rfl, rfl⟩ <;>
    simp [projectUpdateFields, mem_ite_singleton]

-- ---------------------------------------------------------------------------
-- C5: the authenticateToken middleware (schema.ts lines 563-584)
-- ---------------------------------------------------------------------------

/-- The identity columns `authenticateToken` re-reads from the `users` table
on every request (line 573). -/
structure UserRow where
  user_id : String
  email : String
  full_name : String
  role : String
  created_at : String
  deriving DecidableEq, Repr

/-- A bearer token as jwt.verify sees it: the signed claims plus the secret it
was signed with and its expiry instant (seconds). -/
structure JwtToken where
  user_id : String
  email : String
  role : String
  signedWith : String
  exp : Nat
  deriving DecidableEq, Repr

/-- Verification as in `jwt.verify(token, JWT_SECRET)` (line 572): succeeds only for a token
signed with the server secret that has not expired; a wrong secret or an
expired token throws, which the handler turns into the invalid-token response. -/
def jwtVerify (secret : String) (now : Nat) (t : JwtToken) : Option JwtToken :=
  if t.signedWith = secret ∧ now < t.exp then some t else none

/-- What the middleware sends on: an error response (status, error_code) or the
user row attached to the request. -/
inductive AuthResult where
  | errorResp (status : Nat) (code : String)
  | ok (u : UserRow)
  deriving DecidableEq, Repr

/-- Lookup `SELECT ... FROM users WHERE user_id = $1` (line 573). -/
def findUser (store : List UserRow) (uid : String) : Option UserRow :=
  store.find? (fun u => u.user_id == uid)

/-- The authenticateToken middleware (lines 563-584): 401 AUTH_TOKEN_MISSING
when no token is presented, 403 AUTH_TOKEN_INVALID when jwt.verify throws, 401
AUTH_USER_NOT_FOUND when the decoded user id is no longer in the store, else
the user row freshly read from the store. -/
def authenticateToken (secret : String) (now : Nat) (tok : Option JwtToken)
    (store : List UserRow) : AuthResult :=
  match tok with
  | none => .errorResp 401 "AUTH_TOKEN_MISSING"
  | some t =>
    match jwtVerify secret now t with
    | none => .errorResp 403 "AUTH_TOKEN_INVALID"
    | some decoded =>
      match findUser store decoded.user_id with
      | none => .errorResp 401 "AUTH_USER_NOT_FOUND"
      | some u => .ok u

/-- C5: the three failure modes produce three pairwise-distinct error kinds —
missing token, invalid token (wrong secret or expired), and a valid token whose
user no longer exists — and on success the attached identity is the row read
from the store on this request, not the token body. -/
theorem c5_auth_error_kinds (secret : String) (now : Nat) (store : List UserRow)
    (t : JwtToken) (u : UserRow) :
    authenticateToken secret now none store = .errorResp 401 "AUTH_TOKEN_MISSING"
    ∧ (t.signedWith ≠ secret ∨ t.exp ≤ now →
        authenticateToken secret now (some t) store = .errorResp 403 "AUTH_TOKEN_INVALID")
    ∧ (t.signedWith = secret → now < t.exp → findUser store t.user_id = none →
        authenticateToken secret now (some t) store = .errorResp 401 "AUTH_USER_NOT_FOUND")
    ∧ (t.signedWith = secret → now < t.exp → findUser store t.user_id = some u →
        authenticateToken secret now (some t) store = .ok u)
    ∧ (AuthResult.errorResp 401 "AUTH_TOKEN_MISSING" ≠ .errorResp 403 "AUTH_TOKEN_INVALID"
      ∧ AuthResult.errorResp 401 "AUTH_TOKEN_MISSING" ≠ .errorResp 401 "AUTH_USER_NOT_FOUND"
      ∧ AuthResult.errorResp 403 "AUTH_TOKEN_INVALID" ≠ .errorResp 401 "AUTH_USER_NOT_FOUND") := by
  refine ⟨rfl, ?_, ?_, ?_, by decide, by decide, by decide⟩
  · intro h
    have hno : ¬(t.signedWith = secret ∧ now < t.exp) := by
      rintro ⟨h1, h2⟩
      rcases h with h | h
      · exact h h1
      · omega
    unfold authenticateToken jwtVerify
    simp [hno]
  · intro h1 h2 h3
    unfold authenticateToken jwtVerify
    simp [h1, h2, h3]
  · intro h1 h2 h3
    unfold authenticateToken jwtVerify
    simp [h1, h2, h3]

/-- The one user present in the sample store. -/
def sampleUser : UserRow :=
  { user_id := "u1", email := "ada@example.com", full_name := "Ada",
    role := "user", created_at := "2024-01-01" }

/-- A well-formed token for `sampleUser`, signed with the server secret. -/
def goodToken : JwtToken :=
  { user_id := "u1", email := "ada@example.com", role := "user",
    signedWith := "server-secret", exp := 100 }

/-- The same claims signed with a different secret. -/
def wrongSecretToken : JwtToken := { goodToken with signedWith := "other-secret" }

/-- A correctly signed token that expired at instant 3. -/
def expiredToken : JwtToken := { goodToken with exp := 3 }

/-- A correctly signed, unexpired token naming a deleted user id. -/
def deletedUserToken : JwtToken := { goodToken with user_id := "ghost" }

theorem c5_auth_error_kinds_witness :
    authenticateToken "server-secret" 50 none [sampleUser]
        = .errorResp 401 "AUTH_TOKEN_MISSING"
    ∧ authenticateToken "server-secret" 50 (some wrongSecretToken) [sampleUser]
        = .errorResp 403 "AUTH_TOKEN_INVALID"
    ∧ authenticateToken "server-secret" 50 (some expiredToken) [sampleUser]
        = .errorResp 403 "AUTH_TOKEN_INVALID"
    ∧ authenticateToken "server-secret" 50 (some deletedUserToken) [sampleUser]
        = .errorResp 401 "AUTH_USER_NOT_FOUND"
    ∧ authenticateToken "server-secret" 50 (some goodToken) [sampleUser] = .ok sampleUser :=
  ⟨(c5_auth_error_kinds "server-secret" 50 [sampleUser] goodToken sampleUser).1,
   (c5_auth_error_kinds "server-secret" 50 [sampleUser] wrongSecretToken sampleUser).2.1
     (Or.inl (by decide)),
   (c5_auth_error_kinds "server-secret" 50 [sampleUser] expiredToken sampleUser).2.1
     (Or.inr (by decide)),
   (c5_auth_error_kinds "server-secret" 50 [sampleUser] deletedUserToken sampleUser).2.2.1
     (by decide) (by decide) rfl,
   (c5_auth_error_kinds "server-secret" 50 [sampleUser] goodToken sampleUser).2.2.2.1
     (by decide) (by decide) rfl⟩

-- ---------------------------------------------------------------------------
-- C7: createErrorResponse (schema.ts lines 445-469) and the 500 handlers
-- ---------------------------------------------------------------------------

/-- A JavaScript Error as the catch blocks receive it: name, message and the
optional stack trace. -/
structure JsError where
  name : String
  message : String
  stack : Option String
  deriving DecidableEq, Repr

/-- The `details` object createErrorResponse builds from an error argument. -/
structure ErrorDetails where
  name : String
  message : String
  stack : Option String
  deriving DecidableEq, Repr

/-- The uniform error envelope (timestamp omitted: it carries no error data). -/
structure ErrorResponse where
  success : Bool
  message : String
  error_code : Option String
  details : Option ErrorDetails
  deriving DecidableEq, Repr

/-- The utility `createErrorResponse(message, error, errorCode)` (lines 445-469): when an
error object is passed, its name, message and stack are copied verbatim into
the `details` of the response. -/
def createErrorResponse (message : String) (error : Option JsError)
    (errorCode : Option String) : ErrorResponse :=
  { success := false, message := message, error_code := errorCode,
    details := error.map (fun e => { name := e.name, message := e.message, stack := e.stack }) }

/-- The 500 handler shared by the catch block of every route (e.g. line 654 of
POST /api/auth/register): the raw caught error is passed along. -/
def internalServerErrorResponse (error : JsError) : ErrorResponse :=
  createErrorResponse "Internal server error" (some error) (some "INTERNAL_SERVER_ERROR")

/-- A store-level error as the pg driver raises it on a unique-key violation. -/
def dbError : JsError :=
  { name := "error",
    message := "duplicate key value violates unique constraint users_email_key",
    stack := some "error: duplicate key value violates unique constraint at Parser.parseErrorMessage (pg-protocol)" }

/-- C7: the claim says no error response ever exposes a stack trace or raw
store error text.  The 500 handlers pass the caught error into
createErrorResponse, which copies its name, raw message and stack verbatim
into `details`; only responses built with a null error (the 4xx paths) carry
no details object. -/
theorem c7_internal_error_exposes_stack :
    (internalServerErrorResponse dbError).details
      = some { name := dbError.name, message := dbError.message, stack := dbError.stack }
    ∧ dbError.stack ≠ none
    ∧ dbError.message = "duplicate key value violates unique constraint users_email_key"
    ∧ (createErrorResponse "Project not found" none (some "PROJECT_NOT_FOUND")).details
        = none := by
  decide

-- ---------------------------------------------------------------------------
-- C10: POST /api/resumes (schema.ts lines 1851-1879) and the primary invariant
-- ---------------------------------------------------------------------------

/-- A row of the `resumes` table. -/
structure ResumeRow where
  resume_id : String
  user_id : String
  file_url : String
  file_name : String
  file_size : Nat
  uploaded_at : String
  primary_resume : Bool
  deriving DecidableEq, Repr

/-- The statement `UPDATE resumes SET primary_resume = false WHERE user_id = $1` (line 1860). -/
def demoteResumes (store : List ResumeRow) (uid : String) : List ResumeRow :=
  store.map (fun r => if r.user_id == uid then { r with primary_resume := false } else r)

/-- The row INSERTed by POST /api/resumes (lines 1866-1869). -/
def newResumeRow (newId actorId fileUrl fileName : String) (fileSize : Nat)
    (now : String) (b : Bool) : ResumeRow :=
  { resume_id := newId, user_id := actorId, file_url := fileUrl, file_name := fileName,
    file_size := fileSize, uploaded_at := now, primary_resume := b }

/-- POST /api/resumes (lines 1851-1879): `isPrimary` is the body field compared
against the string literal false (line 1858); when primary, all existing actor-owned
resumes are first all demoted, then the new row is inserted. -/
def postResume (store : List ResumeRow) (actorId : String) (primaryField : Option String)
    (newId fileUrl fileName : String) (fileSize : Nat) (now : String) : List ResumeRow :=
  let isPrimary := primaryField != some "false"
  let store1 := if isPrimary then demoteResumes store actorId else store
  store1 ++ [newResumeRow newId actorId fileUrl fileName fileSize now isPrimary]

/-- How many of the rows of a user are marked primary. -/
def primaryCount (store : List ResumeRow) (u : String) : Nat :=
  (store.filter (fun r => r.user_id == u && r.primary_resume)).length

/-- The invariant: every user has at most one primary resume. -/
def AtMostOnePrimary (store : List ResumeRow) : Prop :=
  ∀ u, primaryCount store u ≤ 1

theorem demoteResumes_cons (r : ResumeRow) (rest : List ResumeRow) (uid : String) :
    demoteResumes (r :: rest) uid
      = (if r.user_id == uid then { r with primary_resume := false } else r)
          :: demoteResumes rest uid := rfl

theorem primaryCount_cons (r : ResumeRow) (rest : List ResumeRow) (u : String) :
    primaryCount (r :: rest) u
      = (if r.user_id == u && r.primary_resume then 1 else 0) + primaryCount rest u := by
  unfold primaryCount
  rw [List.filter_cons]
  by_cases hc : (r.user_id == u && r.primary_resume) = true <;> simp [hc, Nat.add_comm]

theorem primaryCount_append (a b : List ResumeRow) (u : String) :
    primaryCount (a ++ b) u = primaryCount a u + primaryCount b u := by
  unfold primaryCount
  rw [List.filter_append, List.length_append]

theorem primaryCount_singleton (r : ResumeRow) (u : String) :
    primaryCount [r] u = if r.user_id == u && r.primary_resume then 1 else 0 := by
  rw [primaryCount_cons]
  simp [primaryCount]

theorem primaryCount_demote_self (store : List ResumeRow) (uid : String) :
    primaryCount (demoteResumes store uid) uid = 0 := by
  induction store with
  | nil => rfl
  | cons r rest ih =>
    rw [demoteResumes_cons, primaryCount_cons]
    by_cases h : r.user_id == uid <;> simp [h, ih]

theorem primaryCount_demote_other (store : List ResumeRow) (uid u : String)
    (hne : ¬(u = uid)) :
    primaryCount (demoteResumes store uid) u = primaryCount store u := by
  induction store with
  | nil => rfl
  | cons r rest ih =>
    rw [demoteResumes_cons, primaryCount_cons, primaryCount_cons]
    by_cases h : r.user_id == uid
    · have hr : r.user_id = uid := by simpa using h
      have h2 : (r.user_id == u) = false := by
        rw [hr]
        exact beq_eq_false_iff_ne.mpr fun e => hne e.symm
      simp [h, h2, ih]
    · simp [h, ih]

/-- C10: a sequential POST /api/resumes preserves the at-most-one-primary
invariant; an explicitly non-primary upload leaves existing rows untouched and
inserts the new row non-primary, while a primary upload (the default) first
demotes all resumes of the actor and then inserts the one primary row. -/
theorem c10_at_most_one_primary (store : List ResumeRow) (actorId : String)
    (primaryField : Option String) (newId fileUrl fileName : String)
    (fileSize : Nat) (now : String) (h : AtMostOnePrimary store) :
    AtMostOnePrimary (postResume store actorId primaryField newId fileUrl fileName fileSize now)
    ∧ (primaryField = some "false" →
        postResume store actorId primaryField newId fileUrl fileName fileSize now
          = store ++ [newResumeRow newId actorId fileUrl fileName fileSize now false])
    ∧ (primaryField ≠ some "false" →
        postResume store actorId primaryField newId fileUrl fileName fileSize now
          = demoteResumes store actorId
              ++ [newResumeRow newId actorId fileUrl fileName fileSize now true]) := by
  by_cases hp : primaryField = some "false"
  · have hb : (primaryField != some "false") = false := by simp [hp]
    have heq : postResume store actorId primaryField newId fileUrl fileName fileSize now
        = store ++ [newResumeRow newId actorId fileUrl fileName fileSize now false] := by
      simp [postResume, hb]
    refine ⟨?_, fun _ => heq, fun hcontra => absurd hp hcontra⟩
    intro u
    rw [heq, primaryCount_append, primaryCount_singleton]
    have hfalse : ((newResumeRow newId actorId fileUrl fileName fileSize now false).user_id == u
        && (newResumeRow newId actorId fileUrl fileName fileSize now false).primary_resume)
          = false := by
      simp [newResumeRow]
    rw [hfalse]
    simpa using h u
  · have hb : (primaryField != some "false") = true := bne_iff_ne.mpr hp
    have heq : postResume store actorId primaryField newId fileUrl fileName fileSize now
        = demoteResumes store actorId
            ++ [newResumeRow newId actorId fileUrl fileName fileSize now true] := by
      simp [postResume, hb]
    refine ⟨?_, fun hcontra => absurd hcontra hp, fun _ => heq⟩
    intro u
    rw [heq, primaryCount_append, primaryCount_singleton]
    by_cases hu : u = actorId
    · subst hu
      rw [primaryCount_demote_self]
      simp [newResumeRow]
    · rw [primaryCount_demote_other store actorId u hu]
      have hne2 : (actorId == u) = false := beq_eq_false_iff_ne.mpr fun e => hu e.symm
      have hfalse : ((newResumeRow newId actorId fileUrl fileName fileSize now true).user_id == u
          && (newResumeRow newId actorId fileUrl fileName fileSize now true).primary_resume)
            = false := by
        simp [newResumeRow, hne2]
      rw [hfalse]
      simpa using h u

/-- An existing primary resume of user u1. -/
def resumeOld : ResumeRow :=
  { resume_id := "r1", user_id := "u1", file_url := "/storage/resumes/old.pdf",
    file_name := "old.pdf", file_size := 1000, uploaded_at := "2024-01-01",
    primary_resume := true }

theorem c10_at_most_one_primary_witness :
    AtMostOnePrimary [resumeOld]
    ∧ AtMostOnePrimary (postResume [resumeOld] "u1" none "r2" "/storage/resumes/new.pdf"
        "new.pdf" 2000 "2024-02-01") := by
  have hinv : AtMostOnePrimary [resumeOld] := by
    intro u
    rw [primaryCount_singleton]
    split <;> simp
  exact ⟨hinv, (c10_at_most_one_primary [resumeOld] "u1" none "r2" "/storage/resumes/new.pdf"
    "new.pdf" 2000 "2024-02-01" hinv).1⟩

end Portfolio
